import Mathlib

/-!
Shallow embedding of the scd-access client library (src/lib/index.ts).

JSON values are modelled by the inductive type `Jx`; JavaScript numbers are
modelled by rationals (no claim compares numeric values, so the binary
floating-point representation is irrelevant here).  The zod schemas of the
source are modelled as functions `Jx → Option Jx` returning the stripped
record on success (zod object parsing removes unknown keys) and `none` when
`parse` would throw a `ZodError`.  Each exported operation of the library is
modelled as a pure function whose result records the single observable
effect of the call: a value returned without network access, an exception
thrown before any network access, or the single outgoing HTTP request.
-/

/-- A JavaScript/JSON value as produced by `JSON.parse`. -/
inductive Jx : Type where
  | null : Jx
  | bool (b : Bool) : Jx
  | num (q : ℚ) : Jx
  | str (s : String) : Jx
  | arr (elems : List Jx) : Jx
  | obj (fields : List (String × Jx)) : Jx

/-- Property lookup on an object; the last occurrence of a key wins, as for
duplicate keys in `JSON.parse`.  Non-objects have no properties. -/
def Jx.get : Jx → String → Option Jx
  | .obj fields, key =>
      fields.foldl (fun acc kv => if kv.1 = key then some kv.2 else acc) none
  | _, _ => none

/-- Model of `z.number()`: accepts exactly number values. -/
def zodNumber : Jx → Option Jx
  | .num q => some (.num q)
  | _ => none

/-- Model of `z.string()`: accepts exactly string values. -/
def zodString : Jx → Option Jx
  | .str s => some (.str s)
  | _ => none

/-- Model of `z.string().url()`.  The underlying check of zod is success of
the WHATWG `new URL(...)` constructor, a host primitive external to this
repository; it is abstracted by the predicate `isURL`. -/
def zodURL (isURL : String → Bool) : Jx → Option Jx
  | .str s => if isURL s then some (.str s) else none
  | _ => none

/-- Element-wise validation of a list, failing when any element fails
(the behaviour of `z.array(inner).parse`). -/
def mapOption (p : Jx → Option Jx) : List Jx → Option (List Jx)
  | [] => some []
  | x :: xs =>
      match p x, mapOption p xs with
      | some y, some ys => some (y :: ys)
      | _, _ => none

/-- Model of `z.array(inner)`: accepts exactly arrays all of whose elements
pass `inner`; an empty array passes vacuously. -/
def zodArray (p : Jx → Option Jx) : Jx → Option Jx
  | .arr xs => (mapOption p xs).map Jx.arr
  | _ => none

/-- A required object property: must be present and pass the inner schema. -/
def reqField (j : Jx) (key : String) (p : Jx → Option Jx) :
    Option (List (String × Jx)) :=
  match j.get key with
  | none => none
  | some v => (p v).map (fun w => [(key, w)])

/-- An optional object property (`.optional()`): absent is fine, but a
present value must pass the inner schema. -/
def optField (j : Jx) (key : String) (p : Jx → Option Jx) :
    Option (List (String × Jx)) :=
  match j.get key with
  | none => some []
  | some v => (p v).map (fun w => [(key, w)])

/-- Whether a value is a JavaScript object (zod object schemas reject
everything else). -/
def isObj : Jx → Bool
  | .obj _ => true
  | _ => false

/-- `positionSchema` of src/lib/index.ts. -/
def positionSchema (j : Jx) : Option Jx :=
  if isObj j then
    (reqField j "lon" zodNumber).bind fun f1 =>
    (reqField j "lat" zodNumber).bind fun f2 =>
    (reqField j "h" zodNumber).bind fun f3 =>
    some (.obj (f1 ++ f2 ++ f3))
  else none

/-- `quaternionSchema` of src/lib/index.ts. -/
def quaternionSchema (j : Jx) : Option Jx :=
  if isObj j then
    (reqField j "x" zodNumber).bind fun f1 =>
    (reqField j "y" zodNumber).bind fun f2 =>
    (reqField j "z" zodNumber).bind fun f3 =>
    (reqField j "w" zodNumber).bind fun f4 =>
    some (.obj (f1 ++ f2 ++ f3 ++ f4))
  else none

/-- `geoPoseSchema` of src/lib/index.ts. -/
def geoPoseSchema (j : Jx) : Option Jx :=
  if isObj j then
    (reqField j "position" positionSchema).bind fun f1 =>
    (reqField j "quaternion" quaternionSchema).bind fun f2 =>
    some (.obj (f1 ++ f2))
  else none

/-- `refSchema` of src/lib/index.ts. -/
def refSchema (isURL : String → Bool) (j : Jx) : Option Jx :=
  if isObj j then
    (reqField j "contentType" zodString).bind fun f1 =>
    (reqField j "url" (zodURL isURL)).bind fun f2 =>
    some (.obj (f1 ++ f2))
  else none

/-- `defSchema` of src/lib/index.ts. -/
def defSchema (j : Jx) : Option Jx :=
  if isObj j then
    (reqField j "type" zodString).bind fun f1 =>
    (reqField j "value" zodString).bind fun f2 =>
    some (.obj (f1 ++ f2))
  else none

/-- `contentSchema` of src/lib/index.ts. -/
def contentSchema (isURL : String → Bool) (j : Jx) : Option Jx :=
  if isObj j then
    (reqField j "id" zodString).bind fun f1 =>
    (reqField j "type" zodString).bind fun f2 =>
    (reqField j "title" zodString).bind fun f3 =>
    (optField j "description" zodString).bind fun f4 =>
    (optField j "keywords" (zodArray zodString)).bind fun f5 =>
    (optField j "placekey" zodString).bind fun f6 =>
    (optField j "refs" (zodArray (refSchema isURL))).bind fun f7 =>
    (reqField j "geopose" geoPoseSchema).bind fun f8 =>
    (optField j "size" zodNumber).bind fun f9 =>
    (optField j "bbox" zodString).bind fun f10 =>
    (optField j "definitions" (zodArray defSchema)).bind fun f11 =>
    some (.obj (f1 ++ f2 ++ f3 ++ f4 ++ f5 ++ f6 ++ f7 ++ f8 ++ f9 ++ f10 ++ f11))
  else none

/-- `scrNoIdSchema` of src/lib/index.ts. -/
def scrNoIdSchema (isURL : String → Bool) (j : Jx) : Option Jx :=
  if isObj j then
    (reqField j "type" zodString).bind fun f1 =>
    (reqField j "content" (contentSchema isURL)).bind fun f2 =>
    (optField j "tenant" zodString).bind fun f3 =>
    (optField j "timestamp" zodNumber).bind fun f4 =>
    some (.obj (f1 ++ f2 ++ f3 ++ f4))
  else none

/-- `scrSchema` of src/lib/index.ts: `scrNoIdSchema.extend` with a required
string property `id` (appended to the shape). -/
def scrSchema (isURL : String → Bool) (j : Jx) : Option Jx :=
  if isObj j then
    (reqField j "type" zodString).bind fun f1 =>
    (reqField j "content" (contentSchema isURL)).bind fun f2 =>
    (optField j "tenant" zodString).bind fun f3 =>
    (optField j "timestamp" zodNumber).bind fun f4 =>
    (reqField j "id" zodString).bind fun f5 =>
    some (.obj (f1 ++ f2 ++ f3 ++ f4 ++ f5))
  else none

/-- A decimal literal `m * 10 ^ (-e)`, used to transcribe the numeric
literals of the fixture records. -/
def qdec (m : Int) (e : Nat) : ℚ := (m : ℚ) / (10 : ℚ) ^ e

/-- `localResults` of src/lib/index.ts: the canned multi-record fixture. -/
def localResults : List Jx :=
  [ .obj
      [ ("id", .str "a3683f12b334dea6"),
        ("type", .str "scr"),
        ("content", .obj
          [ ("id", .str "111"),
            ("type", .str "3d"),
            ("title", .str "cat model"),
            ("keywords", .arr [.str "cat"]),
            ("url", .str "https://www.example.com/cat.glb"),
            ("geopose", .obj
              [ ("position", .obj
                  [ ("lon", .num (qdec (-977288818359375) 13)),
                    ("lat", .num (qdec 30286160447473897 15)),
                    ("h", .num (qdec 7834 2)) ]),
                ("quaternion", .obj
                  [ ("x", .num (qdec 5 1)), ("y", .num (qdec 5 1)),
                    ("z", .num (qdec 5 1)), ("w", .num (qdec 5 1)) ]) ]),
            ("size", .num 100) ]),
        ("tenant", .str "oscptest"),
        ("timestamp", .num 202009) ],
    .obj
      [ ("id", .str "d44a6818c119b51e"),
        ("type", .str "scr"),
        ("content", .obj
          [ ("id", .str "222"),
            ("type", .str "3d"),
            ("title", .str "dog model"),
            ("url", .str "https://www.example.com/dog.glb"),
            ("geopose", .obj
              [ ("position", .obj
                  [ ("lon", .num (qdec (-977358341217041) 13)),
                    ("lat", .num (qdec 3028567869039136 14)),
                    ("h", .num (qdec 7834 2)) ]),
                ("quaternion", .obj
                  [ ("x", .num (qdec 5 1)), ("y", .num (qdec 5 1)),
                    ("z", .num (qdec 5 1)), ("w", .num (qdec 5 1)) ]) ]),
            ("size", .num 100) ]),
        ("tenant", .str "oscptest"),
        ("timestamp", .num 20200924) ] ]

/-- `localResult` of src/lib/index.ts: the canned single-record fixture. -/
def localResult : Jx :=
  .obj
    [ ("id", .str "a3683f12b334dea6"),
      ("type", .str "scr"),
      ("content", .obj
        [ ("id", .str "111"),
          ("type", .str "3d"),
          ("title", .str "cat model"),
          ("keywords", .arr [.str "cat"]),
          ("url", .str "https://www.example.com/cat.glb"),
          ("geopose", .obj
            [ ("position", .obj
                [ ("lon", .num (qdec (-977288818359375) 13)),
                  ("lat", .num (qdec 30286160447473897 15)),
                  ("h", .num (qdec 7834 2)) ]),
              ("quaternion", .obj
                [ ("x", .num (qdec 5 1)), ("y", .num (qdec 5 1)),
                  ("z", .num (qdec 5 1)), ("w", .num (qdec 5 1)) ]) ]),
          ("size", .num 100) ]),
      ("tenant", .str "oscptest"),
      ("timestamp", .num 20200924) ]

/-- One hexadecimal digit (lower case). -/
def hexDigit (n : Nat) : Char :=
  if n < 10 then Char.ofNat (48 + n) else Char.ofNat (87 + n)

/-- JSON string escaping of a single character. -/
def escapeChar (c : Char) : String :=
  if c = '"' then "\\\""
  else if c = '\\' then "\\\\"
  else if c = '\n' then "\\n"
  else if c = '\r' then "\\r"
  else if c = '\t' then "\\t"
  else if c.toNat = 8 then "\\b"
  else if c.toNat = 12 then "\\f"
  else if c.toNat < 32 then
    "\\u00" ++ String.mk [hexDigit (c.toNat / 16), hexDigit (c.toNat % 16)]
  else String.mk [c]

/-- JSON string escaping. -/
def escapeString (s : String) : String :=
  s.data.foldl (fun acc c => acc ++ escapeChar c) ""

mutual

/-- Model of `JSON.stringify` on a `Jx` value.  Number formatting is a
normalized-rational rendering rather than the exact double-to-string
algorithm of JavaScript; no claim inspects serialized request bodies. -/
def Jx.stringify : Jx → String
  | .null => "null"
  | .bool true => "true"
  | .bool false => "false"
  | .num q => toString q.num ++ (if q.den = 1 then "" else "/" ++ toString q.den)
  | .str s => "\"" ++ escapeString s ++ "\""
  | .arr xs => "[" ++ stringifyItems xs ++ "]"
  | .obj fs => "\x7b" ++ stringifyFields fs ++ "\x7d"

/-- Comma-separated serialization of array elements. -/
def stringifyItems : List Jx → String
  | [] => ""
  | x :: xs =>
      Jx.stringify x ++ (if xs.isEmpty then "" else ",") ++ stringifyItems xs

/-- Comma-separated serialization of object properties. -/
def stringifyFields : List (String × Jx) → String
  | [] => ""
  | (k, v) :: fs =>
      "\"" ++ escapeString k ++ "\":" ++ Jx.stringify v ++
        (if fs.isEmpty then "" else ",") ++ stringifyFields fs

end

/-- An outgoing HTTP request as assembled by the `request` helper of
src/lib/index.ts: url, method, header list in append order, and the
attached body when one is attached. -/
structure Request where
  url : String
  method : String
  headers : List (String × String)
  body : Option String
  deriving DecidableEq

/-- The kind of exception a call can throw before reaching the network:
a plain `new Error(...)` with its message, a `SyntaxError` thrown by
`JSON.parse` (constructor `parseFailure`, carrying the parser message), or a
`ZodError` thrown by a schema's `parse` (constructor `zodFailure`). -/
inductive JsErr : Type where
  | error (msg : String)
  | parseFailure (msg : String)
  | zodFailure
  deriving DecidableEq

/-- The observable effect of one call to an operation of the library:
a value returned with no network access, an exception thrown with no
network access, or the single outgoing network request. -/
inductive Outcome (α : Type) : Type where
  | ok (value : α)
  | err (e : JsErr)
  | net (req : Request)
  deriving DecidableEq

def GET_METHOD : String := "get"
def POST_METHOD : String := "post"
def PUT_METHOD : String := "put"
def DELETE_METHOD : String := "delete"

def scrsPath : String := "scrs"

/-- The `request` helper of src/lib/index.ts (lines 210-230): builds the
headers (`accept`, `content-type`, and `authorization` exactly when the
token argument is truthy, i.e. a non-empty string) and attaches the body
exactly for POST and PUT.  Issuing the fetch itself is the transport
collaborator; the model stops at the assembled request. -/
def request (url : String) (method : String := GET_METHOD)
    (body : String := "") (token : Option String := none) : Request :=
  { url := url
    method := method
    headers :=
      [("accept", "application/vnd.oscp+json; version=1.0;"),
       ("content-type", "application/json")] ++
      (match token with
       | some t => if t = "" then [] else [("authorization", "Bearer " ++ t)]
       | none => [])
    body := if method = POST_METHOD ∨ method = PUT_METHOD then some body else none }

/-- `getContentsAtLocation` of src/lib/index.ts.  The module-level mutable
flag `local` is passed explicitly as `localFlag`. -/
def getContentsAtLocation (localFlag : Bool) (url topic h3Index : String)
    (keywords : String := "") : Outcome (List Jx) :=
  if localFlag then .ok localResults
  else if topic = "" ∨ h3Index = "" then
    .err (.error ("Check parameters: " ++ topic ++ " " ++ h3Index))
  else
    let keywordsQuery := if keywords = "" then "" else "&keywords=" ++ keywords
    .net (request
      (url ++ "/" ++ scrsPath ++ "/" ++ topic ++ "?h3Index=" ++ h3Index ++ keywordsQuery))

/-- `getContentAtLocation` of src/lib/index.ts: the deprecated alias, whose
body is a single delegation to `getContentsAtLocation`. -/
def getContentAtLocation (localFlag : Bool) (url topic h3Index : String)
    (keywords : String := "") : Outcome (List Jx) :=
  getContentsAtLocation localFlag url topic h3Index keywords

/-- `getContentWithId` of src/lib/index.ts. -/
def getContentWithId (localFlag : Bool) (url topic id : String) : Outcome Jx :=
  if localFlag then .ok localResult
  else if id.length < 16 then
    .err (.error ("Check parameters: " ++ id))
  else
    .net (request (url ++ "/" ++ scrsPath ++ "/" ++ topic ++ "/" ++ id))

/-- `searchContentsForTenant` of src/lib/index.ts.  Note: the source has no
`local` check here; the request goes out in either state of the flag. -/
def searchContentsForTenant (localFlag : Bool) (url topic token : String) :
    Outcome (List Jx) :=
  .net (request (url ++ "/tenant/" ++ scrsPath ++ "/" ++ topic)
    GET_METHOD "" (some token))

/-- `postContent` of src/lib/index.ts.  `isURL` abstracts the WHATWG URL
validity check used by `z.string().url()`. -/
def postContent (isURL : String → Bool) (localFlag : Bool)
    (url topic : String) (scr : Jx) (token : String) : Outcome String :=
  if localFlag then .ok "OK"
  else if token = "" then
    .err (.error ("Check parameter: " ++ token))
  else
    match scrNoIdSchema isURL scr with
    | none => .err .zodFailure
    | some _ =>
        .net (request (url ++ "/" ++ scrsPath ++ "/" ++ topic)
          POST_METHOD (Jx.stringify scr) (some token))

/-- `putContent` of src/lib/index.ts. -/
def putContent (isURL : String → Bool) (localFlag : Bool)
    (url topic : String) (scr : Jx) (id token : String) : Outcome String :=
  if localFlag then .ok "OK"
  else if id = "" ∨ token = "" then
    .err (.error ("Check parameters: " ++ id ++ ", " ++ token))
  else
    match scrSchema isURL scr with
    | none => .err .zodFailure
    | some _ =>
        .net (request (url ++ "/" ++ scrsPath ++ "/" ++ topic ++ "/" ++ id)
          PUT_METHOD (Jx.stringify scr) (some token))

/-- `deleteWithId` of src/lib/index.ts.  Note: the source has no `local`
check here; the request goes out in either state of the flag. -/
def deleteWithId (localFlag : Bool) (url topic id token : String) :
    Outcome String :=
  .net (request (url ++ "/" ++ scrsPath ++ "/" ++ topic ++ "/" ++ id)
    DELETE_METHOD "" (some token))

/-- JSON whitespace. -/
def isJsonWs (c : Char) : Bool := c = ' ' ∨ c = '\t' ∨ c = '\n' ∨ c = '\r'

/-- Skip leading JSON whitespace. -/
def skipWs : List Char → List Char
  | c :: cs => if isJsonWs c then skipWs cs else c :: cs
  | [] => []

/-- Value of a hexadecimal digit. -/
def hexVal (c : Char) : Option Nat :=
  if '0' ≤ c ∧ c ≤ '9' then some (c.toNat - 48)
  else if 'a' ≤ c ∧ c ≤ 'f' then some (c.toNat - 87)
  else if 'A' ≤ c ∧ c ≤ 'F' then some (c.toNat - 55)
  else none

/-- Parse the body of a JSON string after the opening quote, returning the
decoded string and the remaining input. -/
def parseStringBody : List Char → Except String (String × List Char)
  | [] => .error "Unterminated string in JSON"
  | '"' :: cs => .ok ("", cs)
  | '\\' :: 'u' :: a :: b :: c :: d :: cs =>
      match hexVal a, hexVal b, hexVal c, hexVal d with
      | some ha, some hb, some hc, some hd =>
          (match parseStringBody cs with
           | .ok (rest, cs2) =>
               .ok (String.mk [Char.ofNat (((ha * 16 + hb) * 16 + hc) * 16 + hd)] ++ rest, cs2)
           | .error m => .error m)
      | _, _, _, _ => .error "Bad Unicode escape in JSON"
  | '\\' :: e :: cs =>
      (match (if e = '"' then some '"'
              else if e = '\\' then some '\\'
              else if e = '/' then some '/'
              else if e = 'b' then some (Char.ofNat 8)
              else if e = 'f' then some (Char.ofNat 12)
              else if e = 'n' then some '\n'
              else if e = 'r' then some '\r'
              else if e = 't' then some '\t'
              else none) with
       | none => .error "Bad escape character in JSON"
       | some ec =>
           match parseStringBody cs with
           | .ok (rest, cs2) => .ok (String.mk [ec] ++ rest, cs2)
           | .error m => .error m)
  | c :: cs =>
      if c.toNat < 32 then .error "Bad control character in JSON string"
      else
        match parseStringBody cs with
        | .ok (rest, cs2) => .ok (String.mk [c] ++ rest, cs2)
        | .error m => .error m

/-- Decimal value of a digit list. -/
def digitsToNat (ds : List Char) : Nat :=
  ds.foldl (fun acc c => acc * 10 + (c.toNat - 48)) 0

/-- Split the longest leading run of decimal digits. -/
def spanDigits : List Char → List Char × List Char
  | c :: cs =>
      if c.isDigit then
        let (ds, rest) := spanDigits cs
        (c :: ds, rest)
      else ([], c :: cs)
  | [] => ([], [])

/-- Parse an optional JSON fraction part. -/
def parseFrac : List Char → Except String (List Char × List Char)
  | '.' :: rest =>
      (match spanDigits rest with
       | ([], _) => .error "Unexpected token in JSON: bad fraction"
       | (ds, cs) => .ok (ds, cs))
  | cs => .ok ([], cs)

/-- Parse an optional JSON exponent part; returns its sign and digits. -/
def parseExp : List Char → Except String (Bool × List Char × List Char)
  | c :: rest =>
      if c = 'e' ∨ c = 'E' then
        let signed : Bool × List Char :=
          match rest with
          | '-' :: r => (true, r)
          | '+' :: r => (false, r)
          | _ => (false, rest)
        match spanDigits signed.2 with
        | ([], _) => .error "Unexpected token in JSON: bad exponent"
        | (ds, cs) => .ok (signed.1, ds, cs)
      else .ok (false, [], c :: rest)
  | [] => .ok (false, [], [])

/-- Parse a JSON number (ECMA-404 grammar) into a rational. -/
def parseNumber (cs : List Char) : Except String (Jx × List Char) :=
  let signed : Bool × List Char :=
    match cs with
    | '-' :: rest => (true, rest)
    | _ => (false, cs)
  match spanDigits signed.2 with
  | ([], _) => .error "Unexpected token in JSON"
  | (intDigits, cs2) =>
    if 1 < intDigits.length ∧ intDigits.head? = some '0' then
      .error "Unexpected number in JSON: leading zero"
    else
      match parseFrac cs2 with
      | .error m => .error m
      | .ok (fracDigits, cs3) =>
        match parseExp cs3 with
        | .error m => .error m
        | .ok (eneg, expDigits, cs4) =>
          let mant : ℚ :=
            (digitsToNat (intDigits ++ fracDigits) : ℚ) / (10 : ℚ) ^ fracDigits.length
          let mant2 : ℚ := if signed.1 then -mant else mant
          let emag : ℚ := (10 : ℚ) ^ digitsToNat expDigits
          .ok (.num (if eneg then mant2 / emag else mant2 * emag), cs4)

mutual

/-- Fuel-based recursive-descent parser for one JSON value.  The fuel only
bounds recursion; `jsonParse` supplies enough for any input it is given. -/
def parseJx : Nat → List Char → Except String (Jx × List Char)
  | 0, _ => .error "JSON input too deeply nested"
  | fuel + 1, cs =>
      match skipWs cs with
      | [] => .error "Unexpected end of JSON input"
      | 'n' :: 'u' :: 'l' :: 'l' :: rest => .ok (.null, rest)
      | 't' :: 'r' :: 'u' :: 'e' :: rest => .ok (.bool true, rest)
      | 'f' :: 'a' :: 'l' :: 's' :: 'e' :: rest => .ok (.bool false, rest)
      | '"' :: rest =>
          (match parseStringBody rest with
           | .ok (s, rest2) => .ok (.str s, rest2)
           | .error m => .error m)
      | '[' :: rest =>
          (match skipWs rest with
           | ']' :: rest2 => .ok (.arr [], rest2)
           | rest2 => parseArrItems fuel rest2 [])
      | '\x7b' :: rest =>
          (match skipWs rest with
           | '\x7d' :: rest2 => .ok (.obj [], rest2)
           | rest2 => parseObjItems fuel rest2 [])
      | c :: rest =>
          if c = '-' ∨ c.isDigit then parseNumber (c :: rest)
          else .error "Unexpected token in JSON"

/-- Parse the remaining items of a non-empty JSON array. -/
def parseArrItems : Nat → List Char → List Jx → Except String (Jx × List Char)
  | 0, _, _ => .error "JSON input too deeply nested"
  | fuel + 1, cs, acc =>
      match parseJx fuel cs with
      | .error m => .error m
      | .ok (v, rest) =>
          match skipWs rest with
          | ',' :: rest2 => parseArrItems fuel rest2 (acc ++ [v])
          | ']' :: rest2 => .ok (.arr (acc ++ [v]), rest2)
          | _ => .error "Expected comma or closing bracket in JSON array"

/-- Parse the remaining properties of a non-empty JSON object. -/
def parseObjItems : Nat → List Char → List (String × Jx) →
    Except String (Jx × List Char)
  | 0, _, _ => .error "JSON input too deeply nested"
  | fuel + 1, cs, acc =>
      match skipWs cs with
      | '"' :: rest =>
          (match parseStringBody rest with
           | .error m => .error m
           | .ok (k, rest2) =>
               match skipWs rest2 with
               | ':' :: rest3 =>
                   (match parseJx fuel rest3 with
                    | .error m => .error m
                    | .ok (v, rest4) =>
                        match skipWs rest4 with
                        | ',' :: rest5 => parseObjItems fuel rest5 (acc ++ [(k, v)])
                        | '\x7d' :: rest5 => .ok (.obj (acc ++ [(k, v)]), rest5)
                        | _ => .error "Expected comma or closing brace in JSON object")
               | _ => .error "Expected colon in JSON object")
      | _ => .error "Expected property name in JSON object"

end

/-- Model of `JSON.parse`: parse a complete JSON document, or fail with a
`SyntaxError` message.  The message text is a deterministic function of the
input text alone (as for the host `JSON.parse`); it never mentions any file. -/
def jsonParse (s : String) : Except String Jx :=
  match parseJx (2 * s.length + 2) s.data with
  | .error m => .error m
  | .ok (j, rest) =>
      match skipWs rest with
      | [] => .ok j
      | _ => .error "Unexpected non-whitespace character after JSON data"

/-- A browser `File` as far as this library observes it: its `name` and the
text that `FileReader.readAsText` delivers. -/
structure JsFile where
  name : String
  text : String

/-- Substring test, used to state what an error message does not contain. -/
def containsSub (hay needle : String) : Bool :=
  (List.range (hay.length + 1)).any fun i => needle.data.isPrefixOf (hay.data.drop i)

/-- `postScrFile` of src/lib/index.ts (lines 176-181).  `getFileContent` is
modelled at its success path (it resolves with the file text; its rejection
path concerns only unreadable files, which no claim exercises).  The file
text is parsed by `JSON.parse` — a `SyntaxError` propagates — then checked
by `scrNoIdSchema.parse` — a `ZodError` propagates — and only then is the
parsed record handed to `postContent`. -/
def postScrFile (isURL : String → Bool) (localFlag : Bool)
    (url topic : String) (file : JsFile) (token : String) : Outcome String :=
  match jsonParse file.text with
  | .error m => .err (.parseFailure m)
  | .ok parsedResult =>
      match scrNoIdSchema isURL parsedResult with
      | none => .err .zodFailure
      | some scrNoId => postContent isURL localFlag url topic scrNoId token

/-- The two content-negotiation headers that `request` always appends, as a
predicate on an assembled request. -/
def baseHeaders (req : Request) : Prop :=
  ("accept", "application/vnd.oscp+json; version=1.0;") ∈ req.headers ∧
  ("content-type", "application/json") ∈ req.headers

/-- No authorization header of any value is present. -/
def noAuthHeader (req : Request) : Prop :=
  ∀ v, ("authorization", v) ∉ req.headers

/-- The bearer authorization header is present exactly when the supplied
token is non-empty. -/
def authHeaderIff (req : Request) (token : String) : Prop :=
  (token ≠ "" → ("authorization", "Bearer " ++ token) ∈ req.headers) ∧
  (token = "" → ∀ v, ("authorization", v) ∉ req.headers)

/-- A geopose value that satisfies `geoPoseSchema`. -/
def sampleGeopose : Jx :=
  .obj [("position", .obj [("lon", .num 0), ("lat", .num 0), ("h", .num 0)]),
        ("quaternion", .obj [("x", .num 0), ("y", .num 0), ("z", .num 0), ("w", .num 1)])]

/-- A reference value shaped as `refSchema` expects. -/
def sampleRef : Jx :=
  .obj [("contentType", .str "model/gltf-binary"),
        ("url", .str "https://www.example.com/cat.glb")]

/-- A content record whose `refs` is the empty array and whose remaining
fields satisfy `contentSchema`. -/
def emptyRefsContent : Jx :=
  .obj [("id", .str "111"), ("type", .str "3d"), ("title", .str "cat model"),
        ("refs", .arr []), ("geopose", sampleGeopose)]

/-- An SCR-no-id candidate whose content carries an empty `refs` array. -/
def emptyRefsScr : Jx := .obj [("type", .str "scr"), ("content", emptyRefsContent)]

/-- Fields of a content record carrying exactly one reference. -/
def oneRefContentFields : List (String × Jx) :=
  [("id", .str "111"), ("type", .str "3d"), ("title", .str "cat model"),
   ("refs", .arr [sampleRef]), ("geopose", sampleGeopose)]

/-- A full SCR (with top-level id) satisfying `scrSchema`. -/
def sampleScr : Jx :=
  .obj [("type", .str "scr"),
        ("content", .obj [("id", .str "111"), ("type", .str "3d"),
                          ("title", .str "cat model"), ("geopose", sampleGeopose)]),
        ("id", .str "a3683f12b334dea6")]

theorem bind_const_none {α β : Type} (x : Option α) :
    (x.bind fun _ => (none : Option β)) = none := by
  cases x <;> rfl

theorem mapOption_mem_isSome (p : Jx → Option Jx) :
    ∀ xs, (mapOption p xs).isSome = true → ∀ x ∈ xs, (p x).isSome = true := by
  intro xs
  induction xs with
  | nil => intro _ x hx; cases hx
  | cons y ys ih =>
      intro h x hx
      rw [mapOption] at h
      cases hp : p y with
      | none => rw [hp] at h; cases h
      | some v =>
          cases hm : mapOption p ys with
          | none => rw [hp, hm] at h; cases h
          | some vs =>
              rcases List.mem_cons.mp hx with rfl | hx2
              · rw [hp]; rfl
              · exact ih (by rw [hm]; rfl) x hx2

/-- C10: for all arguments and both states of the offline flag, the
deprecated alias `getContentAtLocation` returns exactly the result of
`getContentsAtLocation` on the same arguments. -/
theorem c10_alias_equivalence (localFlag : Bool) (url topic h3Index keywords : String) :
    getContentAtLocation localFlag url topic h3Index keywords =
      getContentsAtLocation localFlag url topic h3Index keywords := rfl

/-- C8: with the offline flag enabled, `getContentsAtLocation` returns the
fixture sequence of exactly 2 records with top-level ids
`a3683f12b334dea6` and `d44a6818c119b51e` in that order, and `postContent`
returns exactly the string `OK`, for all argument values and with no
network request in either case. -/
theorem c8_offline_fixtures :
    (∀ url topic h3Index keywords,
        getContentsAtLocation true url topic h3Index keywords = .ok localResults) ∧
    localResults.length = 2 ∧
    localResults.map (fun j => j.get "id") =
      [some (.str "a3683f12b334dea6"), some (.str "d44a6818c119b51e")] ∧
    (∀ isURL url topic scr token,
        postContent isURL true url topic scr token = .ok "OK") :=
  ⟨fun _ _ _ _ => rfl, rfl, rfl, fun _ _ _ _ _ => rfl⟩

/-- C5: with the offline flag disabled, `getContentsAtLocation` with an
empty topic or an empty h3Index throws the invalid-argument error before
any network request. -/
theorem c5_empty_arguments (url topic h3Index keywords : String)
    (h : topic = "" ∨ h3Index = "") :
    getContentsAtLocation false url topic h3Index keywords =
      .err (.error ("Check parameters: " ++ topic ++ " " ++ h3Index)) := by
  rcases h with h | h <;> subst h <;> simp [getContentsAtLocation]

/-- Witness for C5 at a concrete empty topic. -/
theorem c5_empty_arguments_witness :
    getContentsAtLocation false "https://svc" "" "8928308280fffff" "" =
      .err (.error ("Check parameters: " ++ "" ++ " " ++ "8928308280fffff")) :=
  c5_empty_arguments "https://svc" "" "8928308280fffff" "" (Or.inl rfl)

/-- C4: with the offline flag disabled, `getContentWithId` with an id
shorter than 16 characters throws the invalid-argument error with no
network request, and with an id of length at least 16 it issues the GET
request to exactly serviceUrl/scrs/topic/id. -/
theorem c4_get_by_id (url topic id : String) :
    (id.length < 16 →
      getContentWithId false url topic id =
        .err (.error ("Check parameters: " ++ id))) ∧
    (16 ≤ id.length →
      getContentWithId false url topic id =
        .net (request (url ++ "/" ++ scrsPath ++ "/" ++ topic ++ "/" ++ id))) := by
  constructor
  · intro h
    simp [getContentWithId, h]
  · intro h
    have h2 : ¬ id.length < 16 := by omega
    simp [getContentWithId, h2]

/-- Witness for C4: a 15-character id is rejected, a 16-character id goes
out as a GET to the expected URL. -/
theorem c4_get_by_id_witness :
    getContentWithId false "https://svc" "3d" "123456789012345" =
      .err (.error ("Check parameters: " ++ "123456789012345")) ∧
    getContentWithId false "https://svc" "3d" "a3683f12b334dea6" =
      .net (request ("https://svc" ++ "/" ++ scrsPath ++ "/" ++ "3d" ++ "/" ++ "a3683f12b334dea6")) :=
  ⟨(c4_get_by_id "https://svc" "3d" "123456789012345").1 (by decide),
   (c4_get_by_id "https://svc" "3d" "a3683f12b334dea6").2 (by decide)⟩

/-- C6: when `getContentsAtLocation` reaches the network, the requested URL
is serviceUrl/scrs/topic?h3Index=h3Index when the keywords argument is
empty (the keywords parameter is omitted entirely), and has
&keywords=keywords appended when keywords is non-empty. -/
theorem c6_query_url (url topic h3Index keywords : String)
    (ht : topic ≠ "") (hh : h3Index ≠ "") :
    (keywords = "" →
      getContentsAtLocation false url topic h3Index keywords =
        .net (request (url ++ "/" ++ scrsPath ++ "/" ++ topic ++ "?h3Index=" ++ h3Index))) ∧
    (keywords ≠ "" →
      getContentsAtLocation false url topic h3Index keywords =
        .net (request (url ++ "/" ++ scrsPath ++ "/" ++ topic ++ "?h3Index=" ++ h3Index ++
          "&keywords=" ++ keywords))) := by
  constructor
  · intro hk
    subst hk
    simp [getContentsAtLocation, ht, hh, String.append_empty]
  · intro hk
    simp [getContentsAtLocation, ht, hh, hk, String.append_assoc]

/-- Witness for C6 with and without keywords at concrete arguments. -/
theorem c6_query_url_witness :
    getContentsAtLocation false "https://svc" "3d" "8928308280fffff" "" =
      .net (request ("https://svc" ++ "/" ++ scrsPath ++ "/" ++ "3d" ++ "?h3Index=" ++ "8928308280fffff")) ∧
    getContentsAtLocation false "https://svc" "3d" "8928308280fffff" "cat" =
      .net (request ("https://svc" ++ "/" ++ scrsPath ++ "/" ++ "3d" ++ "?h3Index=" ++ "8928308280fffff" ++
        "&keywords=" ++ "cat")) :=
  ⟨(c6_query_url "https://svc" "3d" "8928308280fffff" "" (by decide) (by decide)).1 rfl,
   (c6_query_url "https://svc" "3d" "8928308280fffff" "cat" (by decide) (by decide)).2 (by decide)⟩

/-- C1 counterexample: with the offline flag enabled, `deleteWithId` and
`searchContentsForTenant` still issue their network requests; neither
returns the canned `OK` / fixture list. -/
theorem c1_counterexample :
    deleteWithId true "https://svc" "3d" "a3683f12b334dea6" "tok" =
      .net (request ("https://svc" ++ "/" ++ scrsPath ++ "/" ++ "3d" ++ "/" ++ "a3683f12b334dea6")
        DELETE_METHOD "" (some "tok")) ∧
    deleteWithId true "https://svc" "3d" "a3683f12b334dea6" "tok" ≠ .ok "OK" ∧
    searchContentsForTenant true "https://svc" "3d" "tok" =
      .net (request ("https://svc" ++ "/tenant/" ++ scrsPath ++ "/" ++ "3d")
        GET_METHOD "" (some "tok")) ∧
    searchContentsForTenant true "https://svc" "3d" "tok" ≠ .ok localResults := by
  refine ⟨rfl, ?_, rfl, ?_⟩
  · simp [deleteWithId]
  · simp [searchContentsForTenant]

/-- C1 (amended): with the offline flag enabled, the four operations that
consult the flag — `getContentsAtLocation`, `getContentWithId`,
`postContent`, `putContent` — skip the network and return the canned
fixtures resp. the string `OK` for all arguments; `searchContentsForTenant`
and `deleteWithId` do not consult the flag and issue their network request
in either state of it. -/
theorem c1_offline_flag :
    (∀ url topic h3Index keywords,
        getContentsAtLocation true url topic h3Index keywords = .ok localResults) ∧
    (∀ url topic id, getContentWithId true url topic id = .ok localResult) ∧
    (∀ isURL url topic scr token,
        postContent isURL true url topic scr token = .ok "OK") ∧
    (∀ isURL url topic scr id token,
        putContent isURL true url topic scr id token = .ok "OK") ∧
    (∀ localFlag url topic token,
        ∃ req, searchContentsForTenant localFlag url topic token = .net req) ∧
    (∀ localFlag url topic id token,
        ∃ req, deleteWithId localFlag url topic id token = .net req) :=
  ⟨fun _ _ _ _ => rfl, fun _ _ _ => rfl, fun _ _ _ _ _ => rfl,
   fun _ _ _ _ _ _ => rfl, fun _ _ _ _ => ⟨_, rfl⟩, fun _ _ _ _ _ => ⟨_, rfl⟩⟩

theorem request_headers_props (url method body : String) (token : Option String) :
    baseHeaders (request url method body token) ∧
    (token = none → noAuthHeader (request url method body token)) ∧
    (∀ t, token = some t → authHeaderIff (request url method body token) t) ∧
    (request url method body token).body =
      (if method = POST_METHOD ∨ method = PUT_METHOD then some body else none) := by
  refine ⟨⟨?_, ?_⟩, ?_, ?_, rfl⟩
  · simp [request]
  · simp [request]
  · rintro rfl v
    simp [noAuthHeader, request]
  · rintro t rfl
    constructor
    · intro ht
      simp [request, ht]
    · rintro rfl v
      simp [request]

/-- C7 counterexample: the accept header actually sent carries a trailing
semicolon, `application/vnd.oscp+json; version=1.0;`, so the exact value
`application/vnd.oscp+json; version=1.0` claimed is on no request; shown on
the request issued by a Get-by-id call. -/
theorem c7_counterexample :
    (request ("https://svc" ++ "/" ++ scrsPath ++ "/" ++ "3d" ++ "/" ++ "a3683f12b334dea6")).headers.head? =
      some ("accept", "application/vnd.oscp+json; version=1.0;") ∧
    ("accept", "application/vnd.oscp+json; version=1.0") ∉
      (request ("https://svc" ++ "/" ++ scrsPath ++ "/" ++ "3d" ++ "/" ++ "a3683f12b334dea6")).headers ∧
    getContentWithId false "https://svc" "3d" "a3683f12b334dea6" =
      .net (request ("https://svc" ++ "/" ++ scrsPath ++ "/" ++ "3d" ++ "/" ++ "a3683f12b334dea6")) := by
  refine ⟨rfl, ?_, rfl⟩
  decide

/-- C7 (amended): every operation that reaches the network sends the header
accept with exact value `application/vnd.oscp+json; version=1.0;` (note the
trailing semicolon) and content-type `application/json`; an authorization
header `Bearer token` is present iff a non-empty token was supplied (the
two read operations supply none); and a body is attached iff the operation
is Create (POST) or Replace (PUT). -/
theorem c7_request_construction :
    (∀ url topic h3Index keywords req,
        getContentsAtLocation false url topic h3Index keywords = .net req →
        baseHeaders req ∧ noAuthHeader req ∧ req.body = none) ∧
    (∀ url topic id req,
        getContentWithId false url topic id = .net req →
        baseHeaders req ∧ noAuthHeader req ∧ req.body = none) ∧
    (∀ localFlag url topic token req,
        searchContentsForTenant localFlag url topic token = .net req →
        baseHeaders req ∧ authHeaderIff req token ∧ req.body = none) ∧
    (∀ localFlag url topic id token req,
        deleteWithId localFlag url topic id token = .net req →
        baseHeaders req ∧ authHeaderIff req token ∧ req.body = none) ∧
    (∀ isURL url topic scr token req,
        postContent isURL false url topic scr token = .net req →
        baseHeaders req ∧ authHeaderIff req token ∧ req.body = some (Jx.stringify scr)) ∧
    (∀ isURL url topic scr id token req,
        putContent isURL false url topic scr id token = .net req →
        baseHeaders req ∧ authHeaderIff req token ∧ req.body = some (Jx.stringify scr)) := by
  refine ⟨?_, ?_, ?_, ?_, ?_, ?_⟩
  · intro url topic h3Index keywords req h
    rw [getContentsAtLocation] at h
    split at h
    · cases h
    · split at h
      · cases h
      · cases h
        rcases request_headers_props _ GET_METHOD "" none with ⟨hb, hn, _, hbody⟩
        exact ⟨hb, hn rfl, by simpa [GET_METHOD, POST_METHOD, PUT_METHOD] using hbody⟩
  · intro url topic id req h
    rw [getContentWithId] at h
    split at h
    · cases h
    · split at h
      · cases h
      · cases h
        rcases request_headers_props _ GET_METHOD "" none with ⟨hb, hn, _, hbody⟩
        exact ⟨hb, hn rfl, by simpa [GET_METHOD, POST_METHOD, PUT_METHOD] using hbody⟩
  · intro localFlag url topic token req h
    cases h
    rcases request_headers_props _ GET_METHOD "" (some token) with ⟨hb, _, ha, hbody⟩
    exact ⟨hb, ha token rfl, by simpa [GET_METHOD, POST_METHOD, PUT_METHOD] using hbody⟩
  · intro localFlag url topic id token req h
    cases h
    rcases request_headers_props _ DELETE_METHOD "" (some token) with ⟨hb, _, ha, hbody⟩
    exact ⟨hb, ha token rfl, by simpa [DELETE_METHOD, POST_METHOD, PUT_METHOD] using hbody⟩
  · intro isURL url topic scr token req h
    rw [postContent] at h
    split at h
    · cases h
    · split at h
      · cases h
      · split at h
        · cases h
        · cases h
          rcases request_headers_props _ POST_METHOD (Jx.stringify scr) (some token) with ⟨hb, _, ha, hbody⟩
          exact ⟨hb, ha token rfl, by simpa [POST_METHOD] using hbody⟩
  · intro isURL url topic scr id token req h
    rw [putContent] at h
    split at h
    · cases h
    · split at h
      · cases h
      · split at h
        · cases h
        · cases h
          rcases request_headers_props _ PUT_METHOD (Jx.stringify scr) (some token) with ⟨hb, _, ha, hbody⟩
          exact ⟨hb, ha token rfl, by simpa [PUT_METHOD, POST_METHOD] using hbody⟩

/-- Witness for C7 on the concrete request issued by a tenant listing. -/
theorem c7_request_construction_witness :
    baseHeaders (request ("https://svc" ++ "/tenant/" ++ scrsPath ++ "/" ++ "3d")
      GET_METHOD "" (some "tok")) ∧
    authHeaderIff (request ("https://svc" ++ "/tenant/" ++ scrsPath ++ "/" ++ "3d")
      GET_METHOD "" (some "tok")) "tok" ∧
    (request ("https://svc" ++ "/tenant/" ++ scrsPath ++ "/" ++ "3d")
      GET_METHOD "" (some "tok")).body = none :=
  c7_request_construction.2.2.1 false "https://svc" "3d" "tok"
    (request ("https://svc" ++ "/tenant/" ++ scrsPath ++ "/" ++ "3d") GET_METHOD "" (some "tok")) rfl

/-- C3: with the offline flag disabled, `putContent` throws the
invalid-argument error before any network request when id or token is
empty; otherwise the record is validated against the full SCR schema —
under which a missing or non-string top-level id is rejected — before the
PUT request to serviceUrl/scrs/topic/id is issued. -/
theorem c3_putContent_contract :
    (∀ isURL url topic scr id token, id = "" ∨ token = "" →
        putContent isURL false url topic scr id token =
          .err (.error ("Check parameters: " ++ id ++ ", " ++ token))) ∧
    (∀ isURL url topic scr id token, id ≠ "" → token ≠ "" →
        scrSchema isURL scr = none →
        putContent isURL false url topic scr id token = .err .zodFailure) ∧
    (∀ isURL url topic scr id token r, id ≠ "" → token ≠ "" →
        scrSchema isURL scr = some r →
        putContent isURL false url topic scr id token =
          .net (request (url ++ "/" ++ scrsPath ++ "/" ++ topic ++ "/" ++ id)
            PUT_METHOD (Jx.stringify scr) (some token))) ∧
    (∀ isURL scr, Jx.get scr "id" = none → scrSchema isURL scr = none) ∧
    (∀ isURL scr v r, scrSchema isURL scr = some r → Jx.get scr "id" = some v →
        (zodString v).isSome = true) := by
  refine ⟨?_, ?_, ?_, ?_, ?_⟩
  · intro isURL url topic scr id token h
    rcases h with h | h <;> subst h <;> simp [putContent]
  · intro isURL url topic scr id token h1 h2 h3
    simp [putContent, h1, h2, h3]
  · intro isURL url topic scr id token r h1 h2 h3
    simp [putContent, h1, h2, h3]
  · intro isURL scr h
    cases scr with
    | obj fs =>
        have hid : reqField (Jx.obj fs) "id" zodString = none := by
          simp [reqField, h]
        simp [scrSchema, isObj, hid, bind_const_none]
    | null => rfl
    | bool b => rfl
    | num q => rfl
    | str s => rfl
    | arr xs => rfl
  · intro isURL scr v r hs hg
    cases scr with
    | obj fs =>
        simp only [scrSchema, isObj, if_true, Option.bind_eq_some] at hs
        obtain ⟨f1, h1, f2, h2, f3, h3, f4, h4, f5, h5, heq⟩ := hs
        simp only [reqField, hg, Option.map_eq_some'] at h5
        obtain ⟨w, hw, _⟩ := h5
        rw [hw]
        rfl
    | null => cases hg
    | bool b => cases hg
    | num q => cases hg
    | str s => cases hg
    | arr xs => cases hg

/-- Witness for C3: a concrete valid SCR with non-empty id and token goes
out as the PUT request to the expected URL. -/
theorem c3_putContent_contract_witness :
    putContent (fun _ => true) false "https://svc" "3d" sampleScr "a3683f12b334dea6" "tok" =
      .net (request ("https://svc" ++ "/" ++ scrsPath ++ "/" ++ "3d" ++ "/" ++ "a3683f12b334dea6")
        PUT_METHOD (Jx.stringify sampleScr) (some "tok")) :=
  c3_putContent_contract.2.2.1 (fun _ => true) "https://svc" "3d" sampleScr
    "a3683f12b334dea6" "tok" sampleScr (by decide) (by decide) (by rfl)

/-- C2 counterexample: a candidate whose content carries an empty `refs`
array passes `contentSchema` and `scrNoIdSchema` (even under a URL
predicate that rejects every string), so validation does not require at
least one Reference. -/
theorem c2_counterexample :
    (contentSchema (fun _ => false) emptyRefsContent).isSome = true ∧
    (scrNoIdSchema (fun _ => false) emptyRefsScr).isSome = true ∧
    Jx.get emptyRefsContent "refs" = some (.arr []) :=
  ⟨rfl, rfl, rfl⟩

/-- C2 (amended): when a candidate carries a `refs` field, every element of
it must be a well-formed Reference for validation to succeed, but the array
may be empty: an empty `refs` array is accepted (the minItems constraint
exists only in the legacy JSON schema, not in the zod schemas used by
Create and Replace). -/
theorem c2_refs_validation :
    (∀ isURL fields rs,
        (contentSchema isURL (Jx.obj fields)).isSome = true →
        Jx.get (Jx.obj fields) "refs" = some (Jx.arr rs) →
        ∀ r ∈ rs, (refSchema isURL r).isSome = true) ∧
    (∀ isURL, ∃ j, Jx.get j "refs" = some (Jx.arr []) ∧
        (contentSchema isURL j).isSome = true) := by
  constructor
  · intro isURL fields rs h hr r hrr
    rw [Option.isSome_iff_exists] at h
    obtain ⟨out, h⟩ := h
    simp only [contentSchema, isObj, if_true, Option.bind_eq_some] at h
    obtain ⟨f1, h1, f2, h2, f3, h3, f4, h4, f5, h5, f6, h6, f7, h7, hrest⟩ := h
    simp only [optField, hr, zodArray, Option.map_eq_some'] at h7
    obtain ⟨a, ⟨b, hb, hab⟩, hf⟩ := h7
    exact mapOption_mem_isSome (refSchema isURL) rs (by rw [hb]; rfl) r hrr
  · intro isURL
    exact ⟨emptyRefsContent, rfl, rfl⟩

/-- Witness for C2: applying the element-wise requirement to a content
record with exactly one reference shows that reference well-formed. -/
theorem c2_refs_validation_witness :
    (refSchema (fun _ => true) sampleRef).isSome = true :=
  c2_refs_validation.1 (fun _ => true) oneRefContentFields [sampleRef]
    (by rfl) (by rfl) sampleRef (by simp)

/-- C9 counterexample: a parse failure in `postScrFile` produces the same
error for two different file names — the message, which the third conjunct
shows does not contain the file name, is a function of the file text alone,
so parse failures do not carry the source identifier. -/
theorem c9_counterexample :
    postScrFile (fun _ => true) false "https://svc" "3d" ⟨"records.json", "oops"⟩ "tok" =
      .err (.parseFailure "Unexpected token in JSON") ∧
    postScrFile (fun _ => true) false "https://svc" "3d" ⟨"records.json", "oops"⟩ "tok" =
      postScrFile (fun _ => true) false "https://svc" "3d" ⟨"another-name.json", "oops"⟩ "tok" ∧
    containsSub "Unexpected token in JSON" "records.json" = false := by
  refine ⟨rfl, rfl, by decide⟩

/-- C9 (amended): in `postScrFile`, malformed JSON fails with the parse
error of `JSON.parse` and a parsed but non-conforming record fails with the
schema error of `scrNoIdSchema.parse`; both happen before any network
request, the two kinds (and the plain argument errors) are distinguishable,
and the result never depends on the file name — so neither failure carries
the source identifier (only a file-read failure would). -/
theorem c9_postScrFile_errors :
    (∀ isURL localFlag url topic nm text token m,
        jsonParse text = .error m →
        postScrFile isURL localFlag url topic ⟨nm, text⟩ token =
          .err (.parseFailure m)) ∧
    (∀ isURL localFlag url topic nm text token j,
        jsonParse text = .ok j → scrNoIdSchema isURL j = none →
        postScrFile isURL localFlag url topic ⟨nm, text⟩ token = .err .zodFailure) ∧
    (∀ isURL localFlag url topic nm nm2 text token,
        postScrFile isURL localFlag url topic ⟨nm, text⟩ token =
          postScrFile isURL localFlag url topic ⟨nm2, text⟩ token) ∧
    (∀ m m2, JsErr.parseFailure m ≠ JsErr.error m2) ∧
    (∀ m, JsErr.parseFailure m ≠ JsErr.zodFailure) := by
  refine ⟨?_, ?_, ?_, ?_, ?_⟩
  · intro isURL localFlag url topic nm text token m h
    simp [postScrFile, h]
  · intro isURL localFlag url topic nm text token j h1 h2
    simp [postScrFile, h1, h2]
  · intro isURL localFlag url topic nm nm2 text token
    rfl
  · intro m m2
    simp
  · intro m
    simp

/-- Witness for C9: a concrete non-JSON file text yields the parse-failure
error and a concrete well-formed but non-conforming JSON text yields the
schema-failure error. -/
theorem c9_postScrFile_errors_witness :
    postScrFile (fun _ => true) false "https://svc" "3d" ⟨"scr.json", "not json"⟩ "tok" =
      .err (.parseFailure "Unexpected token in JSON") ∧
    postScrFile (fun _ => true) false "https://svc" "3d" ⟨"scr.json", "\x7b\x7d"⟩ "tok" =
      .err .zodFailure :=
  ⟨c9_postScrFile_errors.1 (fun _ => true) false "https://svc" "3d" "scr.json"
      "not json" "tok" "Unexpected token in JSON" (by rfl),
   c9_postScrFile_errors.2.1 (fun _ => true) false "https://svc" "3d" "scr.json"
      "\x7b\x7d" "tok" (.obj []) (by rfl) (by rfl)⟩
